import Mathlib

/-!
Shallow embedding of the `terminal-prompt` dagger module
(`src/terminal-prompt/src/main/__init__.py`).

The module consists of three dataclass-like object types — `Options`,
`Result`, `TerminalPrompt` — together with field setters and an
`execute` operation that either evaluates the prompt purely (CI mode)
or drives an interactive terminal session through the dagger execution
environment (attended mode).

Modelling conventions:
* Python strings become `String`; `str.strip()` becomes `pyStrip`
  (removal of surrounding ASCII whitespace; the concrete inputs used
  here contain only ASCII).
* Python's `re` module (an external library, not part of the repo) is
  modelled by a faithful executable subset: patterns built from literal
  characters, escapes of non-alphanumeric characters, `.`, `^`, `$`,
  `(`, `)`, `|`, `*`, `+`, `?`, and the counted repeats `{m}`, `{m,}`,
  `{,n}`, `{m,n}`, `{,}` (desugared to repetitions; as in CPython, a
  brace that does not open a well-formed quantifier is a literal, a
  quantifier with `min > max` or a bound of at least `2^32 - 1` is an
  error, and a quantifier directly after an anchor or with nothing
  before it is an error).  `$` matches at the end of the subject or
  just before a trailing newline.  A pattern that is malformed (such
  as an unbalanced parenthesis or a dangling repeat) or that uses a
  construct outside the subset (character classes, escapes of
  alphanumerics, non-greedy or possessive quantifier suffixes) fails
  to parse, which models a fatal `re` compilation error.  `re.search`
  is modelled by trying a match at every start position of the
  subject string.
* `list.index(x)` — which raises `ValueError` when `x` is absent and
  otherwise returns a non-negative index — is modelled with
  `List.indexOf?`, mapping `none` to a raised `ValueError`.
* The external execution environment (wall clock `time.time()`,
  and the human's interactive answers read back via the mounted cache)
  is modelled by an oracle state `Env`: a stream of clock tokens
  (`f"{time.time()}"` formatting of distinct clock reads is injective,
  so tokens are carried as the raw reads) and a stream of captured
  terminal answers.  Each interactive run records which cache keys were
  presented to `dag.cache_volume` / `with_mounted_cache` and which
  tokens were embedded in the no-op marker `with_exec`.
* A Python exception escaping a function is `Except.error`.
-/

namespace Daggerverse

/-- Python exceptions that the prompt engine can raise:
`ValueError` from `list.index`, `re.error` from an invalid pattern. -/
inductive PyErr where
  | valueError : PyErr
  | reError : PyErr
deriving DecidableEq

/-- `Options` dataclass: ci, msg, input, match, choices with the
defaults of `__init__.py` lines 10–16. -/
structure Options where
  ci : Bool
  msg : String
  input : String
  «match» : String
  choices : List String
deriving DecidableEq

/-- The default `Options()` value: `ci=True`, `msg="Continue? (y/n)"`,
`input="n"`, `match="y"`, `choices=[]`. -/
def Options.mkDefault : Options :=
  ⟨true, "Continue? (y/n)", "n", "y", []⟩

/-- `Result` object type: a boolean `outcome` and the evaluated `input`
text. -/
structure Result where
  outcome : Bool
  input : String
deriving DecidableEq

/-- `TerminalPrompt` object type; its `options` field is initialised by
`default_factory=lambda: Options()`. -/
structure TerminalPrompt where
  options : Options
deriving DecidableEq

/-- A freshly constructed `TerminalPrompt()`: holds the default
`Options`. -/
def TerminalPrompt.new : TerminalPrompt :=
  ⟨Options.mkDefault⟩

/-- `with_options`: replaces the whole `Options` value at once.  (In the
source the parameters carry defaults `ci=True`, `msg="Continue? (y/n)"`,
`input=""`, `match="y"`, `choices=()`; the defaults are elided here and
every field is passed explicitly.) -/
def TerminalPrompt.with_options (t : TerminalPrompt) (ci : Bool)
    (msg : String) (input : String) («match» : String)
    (choices : List String) : TerminalPrompt :=
  { t with options := ⟨ci, msg, input, «match», choices⟩ }

/-- `with_ci`: sets the ci flag, returns the prompt for chaining. -/
def TerminalPrompt.with_ci (t : TerminalPrompt) (ci : Bool) :
    TerminalPrompt :=
  { t with options := { t.options with ci := ci } }

/-- `with_msg`: sets the message, returns the prompt for chaining. -/
def TerminalPrompt.with_msg (t : TerminalPrompt) (msg : String) :
    TerminalPrompt :=
  { t with options := { t.options with msg := msg } }

/-- `with_input`: sets the CI-supplied input, returns the prompt. -/
def TerminalPrompt.with_input (t : TerminalPrompt) (input : String) :
    TerminalPrompt :=
  { t with options := { t.options with input := input } }

/-- `with_match`: sets the regex pattern, returns the prompt. -/
def TerminalPrompt.with_match (t : TerminalPrompt) («match» : String) :
    TerminalPrompt :=
  { t with options := { t.options with «match» := «match» } }

/-- `with_choices`: sets the list of choices, returns the prompt. -/
def TerminalPrompt.with_choices (t : TerminalPrompt)
    (choices : List String) : TerminalPrompt :=
  { t with options := { t.options with choices := choices } }

/-! ### Model of Python `re` (external library), restricted to the
metacharacters `( ) | * + ? . ^ $`, counted repeats `{m}` `{m,}`
`{,n}` `{m,n}` `{,}`, and backslash escapes of non-alphanumeric
characters.  Other constructs (character classes, escapes of
alphanumerics, non-greedy and possessive quantifier suffixes) are
outside the modelled subset and their patterns are treated as
unparseable. -/

/-- Abstract syntax of the modelled regular-expression subset. -/
inductive RE where
  | eps : RE
  | char : Char → RE
  | dot : RE
  | bol : RE
  | eol : RE
  | seq : RE → RE → RE
  | alt : RE → RE → RE
  | star : RE → RE
deriving DecidableEq

/-- Structural size of a pattern, used to budget the matcher's fuel. -/
def sizeRE : RE → ℕ
  | .eps => 1
  | .char _ => 1
  | .dot => 1
  | .bol => 1
  | .eol => 1
  | .seq a b => sizeRE a + sizeRE b + 1
  | .alt a b => sizeRE a + sizeRE b + 1
  | .star a => sizeRE a + 1

/-- `matchEnds fuel r s i`: all end positions `j` such that `r` matches
the slice `s[i..j)` of the subject `s`, with the anchors interpreted
against the whole subject: `^` matches only at position `0`, and `$`
matches at the end of the subject or just before a trailing newline
(Python `$` without `re.MULTILINE`).  `fuel` strictly decreases on
every recursive call; each `star` unfolding consumes a strictly
positive amount of input, so a fuel of `sizeRE r * (s.length + 1)`
already makes exhaustion unreachable. -/
def matchEnds : ℕ → RE → List Char → ℕ → List ℕ
  | 0, _, _, _ => []
  | _ + 1, .eps, _, i => [i]
  | _ + 1, .char c, s, i =>
    match s.drop i with
    | [] => []
    | d :: _ => if d = c then [i + 1] else []
  | _ + 1, .dot, s, i =>
    match s.drop i with
    | [] => []
    | d :: _ => if d = '\n' then [] else [i + 1]
  | _ + 1, .bol, _, i => if i = 0 then [i] else []
  | _ + 1, .eol, s, i =>
    if i = s.length then [i]
    else if s.drop i = ['\n'] then [i] else []
  | f + 1, .seq a b, s, i =>
    ((matchEnds f a s i).map (fun j => matchEnds f b s j)).flatten
  | f + 1, .alt a b, s, i =>
    matchEnds f a s i ++ matchEnds f b s i
  | f + 1, .star a, s, i =>
    i :: (((matchEnds f a s i).filter (fun j => i < j)).map
      (fun j => matchEnds f (.star a) s j)).flatten

/-- Fuel that is always sufficient for `matchEnds` on subject `s`. -/
def searchFuel (r : RE) (s : String) : ℕ :=
  (sizeRE r + 1) * (s.length + 1)

/-- `re.search(pattern, string)` outcome: does the pattern match
starting at some position of the subject?  (A substring match anywhere
suffices; no full-string anchoring is imposed.) -/
def searchRE (r : RE) (s : String) : Bool :=
  (List.range (s.length + 1)).any
    (fun i => !(matchEnds (searchFuel r s) r s.data i).isEmpty)

/-- Is the expression a bare anchor?  Python rejects a quantifier
applied directly to `^` or `$` ("nothing to repeat"). -/
def isAnchor : RE → Bool
  | .bol => true
  | .eol => true
  | _ => false

/-- `r` repeated exactly `n` times. -/
def repRE (r : RE) : ℕ → RE
  | 0 => .eps
  | n + 1 => .seq r (repRE r n)

/-- `r` repeated at most `n` times. -/
def optRepRE (r : RE) : ℕ → RE
  | 0 => .eps
  | n + 1 => .seq (.alt r .eps) (optRepRE r n)

/-- CPython's `MAXREPEAT`: a repeat bound of `2^32 - 1` or more is a
fatal error ("the repetition number is too large"). -/
def maxRepeat : ℕ := 4294967295

/-- Read a run of decimal digits onto an accumulator. -/
def parseDigits : List Char → ℕ → ℕ × List Char
  | c :: cs, acc =>
    if c.isDigit then parseDigits cs (acc * 10 + (c.toNat - 48))
    else (acc, c :: cs)
  | [], acc => (acc, [])

/-- Read a non-empty run of decimal digits as a number. -/
def parseNat : List Char → Option (ℕ × List Char)
  | c :: cs =>
    if c.isDigit then some (parseDigits cs (c.toNat - 48)) else none
  | [] => none

/-- A well-formed brace quantifier. -/
inductive Quant where
  | exact : ℕ → Quant
  | atLeast : ℕ → Quant
  | between : ℕ → ℕ → Quant

/-- Recognise a well-formed brace quantifier `{m}`, `{m,}`, `{,n}`,
`{m,n}` or `{,}` at the head of the input.  `none` means no quantifier
opens here; a brace that does not open a quantifier stays a literal,
as in CPython. -/
def parseQuant : List Char → Option (Quant × List Char)
  | '{' :: cs =>
    match parseNat cs with
    | some (m, rest) =>
      match rest with
      | '}' :: rest2 => some (.exact m, rest2)
      | ',' :: rest2 =>
        match rest2 with
        | '}' :: rest3 => some (.atLeast m, rest3)
        | _ =>
          match parseNat rest2 with
          | some (n, rest3) =>
            match rest3 with
            | '}' :: rest4 => some (.between m n, rest4)
            | _ => none
          | none => none
      | _ => none
    | none =>
      match cs with
      | ',' :: rest2 =>
        match rest2 with
        | '}' :: rest3 => some (.atLeast 0, rest3)
        | _ =>
          match parseNat rest2 with
          | some (n, rest3) =>
            match rest3 with
            | '}' :: rest4 => some (.between 0 n, rest4)
            | _ => none
          | none => none
      | _ => none
  | _ => none

/-- Desugar a brace quantifier applied to `r`.  `none` is a fatal
compilation error: `min > max` ("min repeat greater than max repeat")
or a bound at `MAXREPEAT` or above. -/
def applyQuant (r : RE) : Quant → Option RE
  | .exact m => if m < maxRepeat then some (repRE r m) else none
  | .atLeast m =>
    if m < maxRepeat then some (.seq (repRE r m) (.star r)) else none
  | .between m n =>
    if m ≤ n ∧ n < maxRepeat then
      some (.seq (repRE r m) (optRepRE r (n - m)))
    else none

/-- Recursive-descent parser for the modelled pattern subset.  The tag
`lvl` selects the grammar nonterminal: `0` = alternation, `1` =
sequence, `2` = repeat-factor, `3` = atom.  `fuel` strictly decreases on
every recursive call.  A fatal quantifier error (applied to an anchor,
`min > max`, out-of-range bound, or a quantifier with nothing before
it) fails the enclosing factor, so the offending suffix is left
unconsumed and the whole pattern is rejected at top level. -/
def parseR : ℕ → ℕ → List Char → Option (RE × List Char)
  | 0, _, _ => none
  | f + 1, 0, cs =>
    match parseR f 1 cs with
    | none => none
    | some (r, rest) =>
      match rest with
      | '|' :: rest2 =>
        match parseR f 0 rest2 with
        | some (r2, rest3) => some (.alt r r2, rest3)
        | none => none
      | _ => some (r, rest)
  | f + 1, 1, cs =>
    match parseR f 2 cs with
    | none => some (.eps, cs)
    | some (r, rest) =>
      match parseR f 1 rest with
      | some (r2, rest2) => some (.seq r r2, rest2)
      | none => none
  | f + 1, 2, cs =>
    match parseR f 3 cs with
    | none => none
    | some (r, rest) =>
      match rest with
      | '*' :: rest2 => if isAnchor r then none else some (.star r, rest2)
      | '+' :: rest2 =>
        if isAnchor r then none else some (.seq r (.star r), rest2)
      | '?' :: rest2 =>
        if isAnchor r then none else some (.alt r .eps, rest2)
      | _ =>
        match parseQuant rest with
        | none => some (r, rest)
        | some (q, rest3) =>
          if isAnchor r then none
          else
            match applyQuant r q with
            | some r2 => some (r2, rest3)
            | none => none
  | f + 1, _, cs =>
    match cs with
    | [] => none
    | '(' :: rest =>
      match parseR f 0 rest with
      | some (r, ')' :: rest2) => some (r, rest2)
      | _ => none
    | ')' :: _ => none
    | '|' :: _ => none
    | '*' :: _ => none
    | '+' :: _ => none
    | '?' :: _ => none
    | '[' :: _ => none
    | '{' :: rest =>
      match parseQuant ('{' :: rest) with
      | some _ => none
      | none => some (.char '{', rest)
    | '.' :: rest => some (.dot, rest)
    | '^' :: rest => some (.bol, rest)
    | '$' :: rest => some (.eol, rest)
    | '\\' :: c :: rest =>
      if c.isAlphanum then none else some (.char c, rest)
    | '\\' :: [] => none
    | c :: rest => some (.char c, rest)

/-- `re.compile` for the modelled subset: `some r` when the whole
pattern parses, `none` (modelling `re.error`) otherwise. -/
def parseRE (p : String) : Option RE :=
  match parseR (4 * p.length + 4) 0 p.data with
  | some (r, []) => some r
  | _ => none

/-- Python `str.strip()`: remove surrounding whitespace.  (Python also
strips `\v`, `\f` and unicode spaces; the inputs handled here contain
only the ASCII whitespace covered by `Char.isWhitespace`.) -/
def pyStrip (s : String) : String :=
  ⟨((s.data.dropWhile Char.isWhitespace).reverse.dropWhile
      Char.isWhitespace).reverse⟩

/-! ### The execution environment oracle -/

deriving instance DecidableEq for Except

/-- Oracle state for the external execution environment: `clock` is the
stream of wall-clock reads (`clock n` is the value of the `n`-th call
to `time.time()`, already formatted; formatting is injective on clock
reads, so tokens are carried as the raw values), `tick` counts the
reads made so far; `answers` is the stream of raw stdout captures of
the interactive sessions (the text read back from
`/tmp/prompt/input`), `session` counts sessions run so far. -/
structure Env where
  clock : ℕ → ℕ
  tick : ℕ
  answers : ℕ → String
  session : ℕ

/-- One call to `time.time()`: yields the next clock token and advances
the read counter. -/
def readClock (e : Env) : ℕ × Env :=
  (e.clock e.tick, ⟨e.clock, e.tick + 1, e.answers, e.session⟩)

/-- One interactive terminal session followed by the stdout capture of
`cat /tmp/prompt/input`: yields the next raw answer. -/
def readAnswer (e : Env) : String × Env :=
  (e.answers e.session, ⟨e.clock, e.tick, e.answers, e.session + 1⟩)

/-- Observable outcome of one engine invocation: the returned `Result`
(or the Python exception that escaped), the cache keys presented to
`dag.cache_volume`/`with_mounted_cache`, the tokens embedded in the
no-op marker `with_exec(["sh", "-c", ": {token} && exit 0"])`, and the
final oracle state. -/
structure PromptRun where
  result : Except PyErr Result
  cacheKeys : List ℕ
  markerTokens : List ℕ
  env : Env

/-- `user_choice_reply` (attended choice session, lines 93–124): mints
`cache_buster = f"{time.time()}"`, mounts the cache under that same
key, runs the selection script in a terminal, issues the marker exec
embedding `cache_buster`, reads the answer back, and returns
`Result(outcome=choices.index(response.strip()) != -1, input=response)`
— where `list.index` raises `ValueError` when the stripped response is
absent from `choices`, and otherwise returns a non-negative index. -/
def TerminalPrompt.user_choice_reply (t : TerminalPrompt) (e : Env) :
    PromptRun :=
  let (cb, e1) := readClock e
  let (response, e2) := readAnswer e1
  match (t.options.choices).indexOf? (pyStrip response) with
  | none => ⟨Except.error PyErr.valueError, [cb], [cb], e2⟩
  | some i =>
    ⟨Except.ok ⟨(i : Int) != -1, response⟩, [cb], [cb], e2⟩

/-- `user_text_reply` (attended free-text session, lines 126–141):
mints `cache_buster = f"{time.time()}"`, but mounts the cache under a
SECOND, separate `f"{time.time()}"` read; runs the read prompt in a
terminal, issues the marker exec embedding `cache_buster`, strips the
captured reply, and returns
`Result(outcome=re.search(match, response) is not None,
input=response)`. -/
def TerminalPrompt.user_text_reply (t : TerminalPrompt) (e : Env) :
    PromptRun :=
  let (cb, e1) := readClock e
  let (key2, e2) := readClock e1
  let (raw, e3) := readAnswer e2
  let response := pyStrip raw
  match parseRE t.options.«match» with
  | none => ⟨Except.error PyErr.reError, [key2], [cb], e3⟩
  | some r =>
    ⟨Except.ok ⟨searchRE r response, response⟩, [key2], [cb], e3⟩

/-- `execute` (lines 79–95): in CI mode evaluates purely — choice
membership when `choices` is non-empty, `re.search` of `match` against
`input` otherwise; in attended mode dispatches to the interactive
choice or free-text session. -/
def TerminalPrompt.execute (t : TerminalPrompt) (e : Env) : PromptRun :=
  if t.options.ci then
    if t.options.choices.length > 0 then
      ⟨Except.ok ⟨t.options.choices.contains t.options.input,
        t.options.input⟩, [], [], e⟩
    else
      match parseRE t.options.«match» with
      | none => ⟨Except.error PyErr.reError, [], [], e⟩
      | some r =>
        ⟨Except.ok ⟨searchRE r t.options.input, t.options.input⟩,
          [], [], e⟩
  else
    if t.options.choices.length > 0 then t.user_choice_reply e
    else t.user_text_reply e

/-! ### Theorems for the frozen claims -/

/-- C1: with `ci = true` and non-empty `choices`, `execute` returns a
`Result` whose outcome is true iff `input` is byte-for-byte equal to
some element of `choices`, and whose `input` field is the supplied
input unchanged. -/
theorem C1_unattended_choice (t : TerminalPrompt) (e : Env)
    (hci : t.options.ci = true) (hch : t.options.choices ≠ []) :
    (t.execute e).result =
      Except.ok ⟨t.options.choices.contains t.options.input,
        t.options.input⟩ ∧
    (t.options.choices.contains t.options.input = true ↔
      t.options.input ∈ t.options.choices) := by
  have hlen : t.options.choices.length > 0 := List.length_pos.mpr hch
  constructor
  · simp [TerminalPrompt.execute, hci, hlen]
  · exact List.elem_iff

/-- Witness for C1 at scenario A of the spec. -/
theorem C1_unattended_choice_witness :
    ((TerminalPrompt.mk
        ⟨true, "m", "bear", "y", ["apple", "bear", "orange"]⟩).execute
      ⟨fun n => n, 0, fun _ => "", 0⟩).result =
      Except.ok ⟨true, "bear"⟩ ∧
    ("bear" : String) ∈ ["apple", "bear", "orange"] := by
  have h := C1_unattended_choice
    (TerminalPrompt.mk ⟨true, "m", "bear", "y", ["apple", "bear", "orange"]⟩)
    ⟨fun n => n, 0, fun _ => "", 0⟩ rfl (by decide)
  exact ⟨h.1.trans (by decide), h.2.mp (by decide)⟩

/-- C7: with `ci = true`, empty `choices` and a pattern that is not
syntactically valid, `execute` raises (`re.error`) and returns no
`Result`. -/
theorem C7_invalid_pattern (t : TerminalPrompt) (e : Env)
    (hci : t.options.ci = true) (hch : t.options.choices = [])
    (hbad : parseRE t.options.«match» = none) :
    (t.execute e).result = Except.error PyErr.reError := by
  simp [TerminalPrompt.execute, hci, hch, hbad]

/-- Witness for C7 at the unbalanced pattern `"("`. -/
theorem C7_invalid_pattern_witness :
    parseRE "(" = none ∧
    ((TerminalPrompt.mk ⟨true, "m", "no", "(", []⟩).execute
      ⟨fun n => n, 0, fun _ => "", 0⟩).result =
      Except.error PyErr.reError := by
  refine ⟨by decide, ?_⟩
  exact C7_invalid_pattern
    (TerminalPrompt.mk ⟨true, "m", "no", "(", []⟩)
    ⟨fun n => n, 0, fun _ => "", 0⟩ rfl rfl (by decide)

/-- C8: with `ci = true`, `execute` is a pure function of the
configuration: its result does not depend on the environment, the
environment is returned unchanged, and no cache key or marker token is
ever presented, so a second call yields the identical `Result`. -/
theorem C8_unattended_pure (t : TerminalPrompt) (e e2 : Env)
    (hci : t.options.ci = true) :
    (t.execute e).result = (t.execute e2).result ∧
    (t.execute e).env = e ∧
    (t.execute e).cacheKeys = [] ∧
    (t.execute e).markerTokens = [] := by
  by_cases hl : t.options.choices.length > 0
  · simp [TerminalPrompt.execute, hci, hl]
  · cases hp : parseRE t.options.«match» <;>
      simp [TerminalPrompt.execute, hci, hl, hp]

/-- Witness for C8 on the default configuration and two distinct
environments. -/
theorem C8_unattended_pure_witness :
    (TerminalPrompt.new.execute ⟨fun n => n, 0, fun _ => "a", 0⟩).result =
      (TerminalPrompt.new.execute ⟨fun n => n + 7, 3, fun _ => "b", 5⟩).result ∧
    (TerminalPrompt.new.execute ⟨fun n => n, 0, fun _ => "a", 0⟩).cacheKeys =
      [] := by
  have h := C8_unattended_pure TerminalPrompt.new
    ⟨fun n => n, 0, fun _ => "a", 0⟩
    ⟨fun n => n + 7, 3, fun _ => "b", 5⟩ rfl
  exact ⟨h.1, h.2.2.1⟩

/-- C9: each single-field setter replaces exactly its own field of the
held `Options` and leaves every other field unchanged (the returned
prompt, used for chaining, consists of nothing but these options). -/
theorem C9_setters_frame (t : TerminalPrompt) (c : Bool)
    (m i p : String) (ch : List String) :
    ((t.with_ci c).options.ci = c ∧
      (t.with_ci c).options.msg = t.options.msg ∧
      (t.with_ci c).options.input = t.options.input ∧
      (t.with_ci c).options.«match» = t.options.«match» ∧
      (t.with_ci c).options.choices = t.options.choices) ∧
    ((t.with_msg m).options.msg = m ∧
      (t.with_msg m).options.ci = t.options.ci ∧
      (t.with_msg m).options.input = t.options.input ∧
      (t.with_msg m).options.«match» = t.options.«match» ∧
      (t.with_msg m).options.choices = t.options.choices) ∧
    ((t.with_input i).options.input = i ∧
      (t.with_input i).options.ci = t.options.ci ∧
      (t.with_input i).options.msg = t.options.msg ∧
      (t.with_input i).options.«match» = t.options.«match» ∧
      (t.with_input i).options.choices = t.options.choices) ∧
    ((t.with_match p).options.«match» = p ∧
      (t.with_match p).options.ci = t.options.ci ∧
      (t.with_match p).options.msg = t.options.msg ∧
      (t.with_match p).options.input = t.options.input ∧
      (t.with_match p).options.choices = t.options.choices) ∧
    ((t.with_choices ch).options.choices = ch ∧
      (t.with_choices ch).options.ci = t.options.ci ∧
      (t.with_choices ch).options.msg = t.options.msg ∧
      (t.with_choices ch).options.input = t.options.input ∧
      (t.with_choices ch).options.«match» = t.options.«match») :=
  ⟨⟨rfl, rfl, rfl, rfl, rfl⟩, ⟨rfl, rfl, rfl, rfl, rfl⟩,
    ⟨rfl, rfl, rfl, rfl, rfl⟩, ⟨rfl, rfl, rfl, rfl, rfl⟩,
    ⟨rfl, rfl, rfl, rfl, rfl⟩⟩

/-- C10: a freshly constructed `TerminalPrompt` holds the defaults
`ci = true`, `msg = "Continue? (y/n)"`, `input = "n"`, `match = "y"`,
`choices = []`, and `execute` on it returns
`Result(outcome := false, input := "n")` (the default input `"n"`
contains no match of the default pattern `"y"`). -/
theorem C10_default_configuration :
    TerminalPrompt.new.options =
      ⟨true, "Continue? (y/n)", "n", "y", []⟩ ∧
    ∀ e : Env, (TerminalPrompt.new.execute e).result =
      Except.ok ⟨false, "n"⟩ :=
  ⟨rfl, fun _ => rfl⟩

/-- `searchRE` succeeds exactly when some start position of the subject
carries a match — the "substring anywhere" reading of `re.search`. -/
theorem searchRE_iff (r : RE) (s : String) :
    searchRE r s = true ↔
      ∃ i, i ≤ s.length ∧
        matchEnds (searchFuel r s) r s.data i ≠ [] := by
  unfold searchRE
  rw [List.any_eq_true]
  constructor
  · rintro ⟨i, hi, hp⟩
    refine ⟨i, Nat.lt_succ_iff.mp (List.mem_range.mp hi), ?_⟩
    simpa using hp
  · rintro ⟨i, hi, hp⟩
    exact ⟨i, List.mem_range.mpr (Nat.lt_succ_iff.mpr hi), by simpa using hp⟩

/-- C2: with `ci = true`, empty `choices` and a pattern that parses,
`execute` returns a `Result` whose outcome is whether the pattern
matches at some position of `input` (substring search, not a
full-string match) and whose `input` field is the supplied input
unchanged. -/
theorem C2_unattended_pattern (t : TerminalPrompt) (e : Env) (r : RE)
    (hci : t.options.ci = true) (hch : t.options.choices = [])
    (hp : parseRE t.options.«match» = some r) :
    (t.execute e).result =
      Except.ok ⟨searchRE r t.options.input, t.options.input⟩ ∧
    (searchRE r t.options.input = true ↔
      ∃ i, i ≤ t.options.input.length ∧
        matchEnds (searchFuel r t.options.input) r
          t.options.input.data i ≠ []) := by
  refine ⟨?_, searchRE_iff r t.options.input⟩
  simp [TerminalPrompt.execute, hci, hch, hp]

/-- Witness for C2 at scenario C of the spec (`match = "y"`,
`input = "yes"`). -/
theorem C2_unattended_pattern_witness :
    parseRE "y" = some (RE.seq (RE.char 'y') RE.eps) ∧
    ((TerminalPrompt.mk ⟨true, "m", "yes", "y", []⟩).execute
      ⟨fun n => n, 0, fun _ => "", 0⟩).result =
      Except.ok ⟨true, "yes"⟩ := by
  have h := C2_unattended_pattern
    (TerminalPrompt.mk ⟨true, "m", "yes", "y", []⟩)
    ⟨fun n => n, 0, fun _ => "", 0⟩
    (RE.seq (RE.char 'y') RE.eps) rfl rfl (by decide)
  exact ⟨by decide, h.1.trans (by decide)⟩

/-- C3 (code bug): in an attended choice session whose captured
selection text is absent from `choices`, `execute` does not return
`Result(outcome := false, ...)` — `list.index` raises `ValueError`.
(When the captured text is present, the outcome is `index != -1`,
which is vacuously true.)  Evaluated at the failing input:
`choices = ["apple", "bear", "orange"]`, captured text `"kiwi"`. -/
theorem C3_choice_absent_raises :
    ((TerminalPrompt.mk
        ⟨false, "m", "", "y", ["apple", "bear", "orange"]⟩).execute
      ⟨fun n => n, 0, fun _ => "kiwi", 0⟩).result =
      Except.error PyErr.valueError ∧
    ((TerminalPrompt.mk
        ⟨false, "m", "", "y", ["apple", "bear", "orange"]⟩).execute
      ⟨fun n => n, 0, fun _ => "orange", 0⟩).result =
      Except.ok ⟨true, "orange"⟩ := by
  exact ⟨by decide, by decide⟩

/-- C5 (code bug): in the attended free-text session the marker exec
embeds the FIRST clock token while the cache volume is mounted under a
SECOND, separate clock read; with distinct clock reads (`0` then `1`)
the marker token and the mount key differ. -/
theorem C5_text_marker_key_mismatch :
    ((TerminalPrompt.mk ⟨false, "m", "", "y", []⟩).execute
      ⟨fun n => n, 0, fun _ => "hello", 0⟩).markerTokens = [0] ∧
    ((TerminalPrompt.mk ⟨false, "m", "", "y", []⟩).execute
      ⟨fun n => n, 0, fun _ => "hello", 0⟩).cacheKeys = [1] ∧
    (0 : ℕ) ≠ 1 := by
  exact ⟨by decide, by decide, by decide⟩

/-- C6 counterexample: in an attended choice session whose captured
text is `"orange\n"` (the `cat` read-back carries the `echo` newline),
the returned `input` field is the RAW captured text `"orange\n"`, not
the trimmed `"orange"` the claim requires. -/
theorem C6_counterexample :
    ((TerminalPrompt.mk ⟨false, "m", "", "y", ["orange"]⟩).execute
      ⟨fun n => n, 0, fun _ => "orange\n", 0⟩).result =
      Except.ok ⟨true, "orange\n"⟩ ∧
    pyStrip "orange\n" = "orange" ∧
    ("orange\n" : String) ≠ "orange" := by
  exact ⟨by decide, by decide, by decide⟩

/-- C6 amended: in every attended choice-mode evaluation that returns a
`Result`, the `input` field is the raw captured selection text,
untrimmed (only the membership test applies trimming). -/
theorem C6_attended_choice_input_raw (t : TerminalPrompt) (e : Env)
    (r : Result) (hci : t.options.ci = false)
    (hch : t.options.choices.length > 0)
    (h : (t.execute e).result = Except.ok r) :
    r.input = e.answers e.session := by
  have hd : t.execute e = t.user_choice_reply e := by
    simp [TerminalPrompt.execute, hci, hch]
  rw [hd] at h
  simp only [TerminalPrompt.user_choice_reply, readClock, readAnswer] at h
  cases hp : (t.options.choices).indexOf?
      (pyStrip (e.answers e.session)) with
  | none => rw [hp] at h; simp at h
  | some i =>
    rw [hp] at h
    simp only [Except.ok.injEq] at h
    rw [← h]

/-- Witness for the amended C6 at captured text `"orange\n"`. -/
theorem C6_attended_choice_input_raw_witness :
    ((TerminalPrompt.mk ⟨false, "m", "", "y", ["orange"]⟩).execute
      ⟨fun n => n, 0, fun _ => "orange\n", 0⟩).result =
      Except.ok ⟨true, "orange\n"⟩ ∧
    Result.input ⟨true, "orange\n"⟩ = "orange\n" := by
  refine ⟨by decide, ?_⟩
  exact C6_attended_choice_input_raw
    (TerminalPrompt.mk ⟨false, "m", "", "y", ["orange"]⟩)
    ⟨fun n => n, 0, fun _ => "orange\n", 0⟩
    ⟨true, "orange\n"⟩ rfl (by decide) (by decide)

/-- Attended choice session: the one cache key presented is the clock
token minted at the current tick, and the run advances the clock by
one read. -/
theorem choice_run_shape (t : TerminalPrompt) (e : Env)
    (hci : t.options.ci = false) (hch : t.options.choices.length > 0) :
    (t.execute e).cacheKeys = [e.clock e.tick] ∧
    (t.execute e).env.clock = e.clock ∧
    (t.execute e).env.tick = e.tick + 1 := by
  have hd : t.execute e = t.user_choice_reply e := by
    simp [TerminalPrompt.execute, hci, hch]
  rw [hd]
  simp only [TerminalPrompt.user_choice_reply, readClock, readAnswer]
  cases (t.options.choices).indexOf? (pyStrip (e.answers e.session)) with
  | none => exact ⟨rfl, rfl, rfl⟩
  | some i => exact ⟨rfl, rfl, rfl⟩

/-- Attended free-text session: the one cache key presented is the
clock token of the SECOND read, and the run advances the clock by two
reads. -/
theorem text_run_shape (t : TerminalPrompt) (e : Env)
    (hci : t.options.ci = false)
    (hch : ¬t.options.choices.length > 0) :
    (t.execute e).cacheKeys = [e.clock (e.tick + 1)] ∧
    (t.execute e).env.clock = e.clock ∧
    (t.execute e).env.tick = e.tick + 2 := by
  have hd : t.execute e = t.user_text_reply e := by
    simp [TerminalPrompt.execute, hci, hch]
  rw [hd]
  simp only [TerminalPrompt.user_text_reply, readClock, readAnswer]
  cases parseRE t.options.«match» with
  | none => exact ⟨rfl, rfl, rfl⟩
  | some r => exact ⟨rfl, rfl, rfl⟩

/-- Any attended run mounts exactly one cache key: a clock token whose
read index lies between the tick before the run and the tick after
it, with the clock stream itself untouched. -/
theorem attended_run_shape (t : TerminalPrompt) (e : Env)
    (hci : t.options.ci = false) :
    ∃ a, (t.execute e).cacheKeys = [e.clock a] ∧
      (t.execute e).env.clock = e.clock ∧
      e.tick ≤ a ∧ a < (t.execute e).env.tick := by
  by_cases hch : t.options.choices.length > 0
  · obtain ⟨hk, hc, ht⟩ := choice_run_shape t e hci hch
    exact ⟨e.tick, hk, hc, le_refl _, by omega⟩
  · obtain ⟨hk, hc, ht⟩ := text_run_shape t e hci hch
    exact ⟨e.tick + 1, hk, hc, by omega, by omega⟩

/-- C4: across any two consecutive attended invocations of `execute`
(either mode each), the cache keys presented to the cache-mount
operation are disjoint, provided the wall clock never repeats a value
(each key is the token of a fresh clock read). -/
theorem C4_attended_cache_keys_distinct (t1 t2 : TerminalPrompt)
    (e : Env) (h1 : t1.options.ci = false)
    (h2 : t2.options.ci = false)
    (hinj : Function.Injective e.clock) :
    List.Disjoint (t1.execute e).cacheKeys
      ((t2.execute (t1.execute e).env).cacheKeys) := by
  obtain ⟨a, hk1, hc1, _, ha⟩ := attended_run_shape t1 e h1
  obtain ⟨b, hk2, _, hb, _⟩ := attended_run_shape t2 (t1.execute e).env h2
  rw [hk1, hk2, hc1]
  intro x hx hy
  rw [List.mem_singleton] at hx hy
  have hab : a = b := hinj (by rw [← hx, hy])
  omega

/-- Witness for C4: a choice-mode run followed by a text-mode run on an
injective (identity) clock present the keys `[0]` and `[1]`. -/
theorem C4_attended_cache_keys_distinct_witness :
    Function.Injective (fun n : ℕ => n) ∧
    List.Disjoint
      ((TerminalPrompt.mk ⟨false, "m", "", "y", ["a"]⟩).execute
        ⟨fun n => n, 0, fun _ => "a", 0⟩).cacheKeys
      (((TerminalPrompt.mk ⟨false, "m", "", "y", []⟩).execute
        ((TerminalPrompt.mk ⟨false, "m", "", "y", ["a"]⟩).execute
          ⟨fun n => n, 0, fun _ => "a", 0⟩).env).cacheKeys) := by
  refine ⟨fun a b h => h, ?_⟩
  exact C4_attended_cache_keys_distinct
    (TerminalPrompt.mk ⟨false, "m", "", "y", ["a"]⟩)
    (TerminalPrompt.mk ⟨false, "m", "", "y", []⟩)
    ⟨fun n => n, 0, fun _ => "a", 0⟩ rfl rfl (fun a b h => h)

end Daggerverse
